import Mathlib

/-!
Verification of the rule-driven automation controller in `data_manager.py`
(class `DataManager`): the rule table `SENSOR_ACTIONS`, the rule-evaluation
entry point `process_sensor_data`, the control-command path
`send_control_message`, and the serialized persistence thread
`_db_thread_func` fed by `save_message` / `get_messages`.

Numeric sensor values and thresholds are modelled as rationals (the Python
code compares ints and floats with `<` / `>`; the thresholds in the table
are exact decimals). A reading (`message_data`) is a partial map from
field names to values, mirroring `message_data.get(key)`.
-/

namespace DataManager

/-- An actuator action dict: `{"device": ..., "state": ..., "topic": ...}`. -/
structure Action where
  device : String
  state : String
  topic : String
deriving DecidableEq

/-- One entry of a sensor's `data_keys` list: field name, threshold,
optional above/below actions (`None` in Python is `none`). -/
structure DataKeyInfo where
  data_key : String
  threshold : ℚ
  above_action : Option Action
  below_action : Option Action
deriving DecidableEq

/-- One value of the `SENSOR_ACTIONS` dict. The Python dict is
heterogeneous: the three sensor entries have `data_topic`,
`control_topic` and `data_keys`, while the `device_control_topics` entry
is a plain device-to-topic map with none of those keys; `dict.get` on a
missing key yields `None`, modelled by the `Option` fields and the empty
`data_keys` list. -/
structure SensorInfo where
  data_topic : Option String
  control_topic : Option String
  data_keys : List DataKeyInfo
  device_topics : List (String × String)
deriving DecidableEq

/-- The `SENSOR_ACTIONS` class attribute, in dict insertion order. -/
def SENSOR_ACTIONS : List (String × SensorInfo) :=
  [ ("dht",
     { data_topic := some "/RG_7557_GreenHouse/Sensors/DHT/Data"
       control_topic := some "/RG_7557_GreenHouse/Sensors/DHT/Control"
       data_keys :=
         [ { data_key := "Temperature"
             threshold := 28
             above_action := some
               { device := "fan"
                 state := "ON"
                 topic := "/RG_7557_GreenHouse/Devices/Fan/Control" }
             below_action := none },
           { data_key := "Humidity"
             threshold := 60
             above_action := some
               { device := "dehumidifier"
                 state := "ON"
                 topic := "/RG_7557_GreenHouse/Devices/Dehumidifier/Control" }
             below_action := none } ]
       device_topics := [] }),
    ("light",
     { data_topic := some "/RG_7557_GreenHouse/Sensors/Light/Data"
       control_topic := some "/RG_7557_GreenHouse/Sensors/Light/Control"
       data_keys :=
         [ { data_key := "Light"
             threshold := 450
             above_action := none
             below_action := some
               { device := "light"
                 state := "ON"
                 topic := "/RG_7557_GreenHouse/Devices/Light/Control" } } ]
       device_topics := [] }),
    ("moisture",
     { data_topic := some "/RG_7557_GreenHouse/Sensors/Moisture/Data"
       control_topic := some "/RG_7557_GreenHouse/Sensors/Moisture/Control"
       data_keys :=
         [ { data_key := "Moisture"
             threshold := 30
             above_action := none
             below_action := some
               { device := "irrigation_system"
                 state := "ON"
                 topic := "/RG_7557_GreenHouse/Devices/IrrigationSystem/Control" } } ]
       device_topics := [] }),
    ("device_control_topics",
     { data_topic := none
       control_topic := none
       data_keys := []
       device_topics :=
         [ ("fan", "/RG_7557_GreenHouse/Devices/Fan/Control"),
           ("dehumidifier", "/RG_7557_GreenHouse/Devices/Dehumidifier/Control"),
           ("light", "/RG_7557_GreenHouse/Devices/Light/Control"),
           ("irrigation_system",
            "/RG_7557_GreenHouse/Devices/IrrigationSystem/Control") ] }) ]

/-- `self.sensor_control_topics`, built in `__init__`:
`sensor_info.get('control_topic')` over every value of `SENSOR_ACTIONS`
(the `device_control_topics` entry contributes Python `None`, hence the
`Option String` elements). The Python value is a set; only membership is
ever used, so a list models it. -/
def sensor_control_topics : List (Option String) :=
  SENSOR_ACTIONS.map (fun p => p.2.control_topic)

/-- `self.control_topics`, built in `__init__`: the `topic` of every
configured `above_action` and `below_action` in the table. The code
builds this set but never reads it afterwards. -/
def control_topics : List String :=
  SENSOR_ACTIONS.foldl
    (fun acc p =>
      p.2.data_keys.foldl
        (fun acc dk =>
          let acc :=
            match dk.above_action with
            | some a => acc ++ [a.topic]
            | none => acc
          match dk.below_action with
          | some a => acc ++ [a.topic]
          | none => acc)
        acc)
    []

/-- A sensor reading, modelling `message_data` with `.get`. -/
def Reading : Type := String → Option ℚ

/-- `json.dumps({"device": ..., "state": ...})` with Python's default
separators. -/
def jsonDeviceState (device state : String) : String :=
  "\x7b\"device\": \"" ++ device ++ "\", \"state\": \"" ++ state ++ "\"\x7d"

/-- `json.dumps({"sensor": ..., "command": ...})` with Python's default
separators. -/
def jsonSensorCommand (sensor command : String) : String :=
  "\x7b\"sensor\": \"" ++ sensor ++ "\", \"command\": \"" ++ command ++ "\"\x7d"

/-- Lines 157-163 of `process_sensor_data`: the `action` selected for one
`data_key_info` given the present sensor value (Python
`if sensor_value > threshold: ... elif sensor_value < threshold: ...`,
`action` staying `None` on equality). -/
def ruleAction (v : ℚ) (dk : DataKeyInfo) : Option Action :=
  if dk.threshold < v then dk.above_action
  else if v < dk.threshold then dk.below_action
  else none

/-- One iteration of the inner `for data_key_info in ...` loop of
`process_sensor_data`, acting on the running state
`(sensor_handled, publishes so far)`: a missing field is skipped
(`continue`), a present field sets `sensor_handled` and, when an action
is selected (`if action:`), appends one publish of the serialized
`{device, state}` payload to the action's topic. -/
def dataKeyStep (reading : Reading) (acc : Bool × List (String × String))
    (dk : DataKeyInfo) : Bool × List (String × String) :=
  match reading dk.data_key with
  | none => acc
  | some v =>
    match ruleAction v dk with
    | some a => (true, acc.2 ++ [(a.topic, jsonDeviceState a.device a.state)])
    | none => (true, acc.2)

/-- The inner loop of `process_sensor_data` over a sensor's `data_keys`. -/
def processDataKeys (reading : Reading) (acc : Bool × List (String × String))
    (dks : List DataKeyInfo) : Bool × List (String × String) :=
  dks.foldl (dataKeyStep reading) acc

/-- One iteration of the outer `for sensor_name, sensor_info in
self.SENSOR_ACTIONS.items()` loop: the `device_control_topics` entry is
skipped, and a sensor whose `data_topic` equals the message topic has its
`data_keys` evaluated. -/
def sensorStep (topic : String) (reading : Reading)
    (acc : Bool × List (String × String)) (p : String × SensorInfo) :
    Bool × List (String × String) :=
  if p.1 = "device_control_topics" then acc
  else if p.2.data_topic = some topic then processDataKeys reading acc p.2.data_keys
  else acc

/-- The outer loop of `process_sensor_data` over a rule table, starting
from `sensor_handled = False` and no publishes. -/
def psdFold (table : List (String × SensorInfo)) (topic : String)
    (reading : Reading) : Bool × List (String × String) :=
  table.foldl (sensorStep topic reading) (false, [])

/-- Observable outcome of `process_sensor_data`: the ordered
`mqtt_client.publish_to` calls, and whether the final
`print("Unknown sensor topic: ...")` branch was taken. -/
structure PsdResult where
  publishes : List (String × String)
  unknownTopic : Bool
deriving DecidableEq

/-- `DataManager.process_sensor_data(topic, message_data)`: run the rule
loop over `SENSOR_ACTIONS`; if no field of any matching sensor was
present (`sensor_handled` stayed false) and the topic is not in
`self.sensor_control_topics`, the unknown-topic message is printed. -/
def process_sensor_data (topic : String) (reading : Reading) : PsdResult :=
  let r := psdFold SENSOR_ACTIONS topic reading
  { publishes := r.2
    unknownTopic := !r.1 && !(sensor_control_topics.contains (some topic)) }

/-- Observable outcome of `send_control_message`: either one publish, or
one of its two error prints followed by `return`. -/
inductive ControlOutcome where
  | published (topic message : String)
  | errNoSensorInfo
  | errNoControlTopic
deriving DecidableEq

/-- `DataManager.send_control_message(sensor_type, command)`:
`SENSOR_ACTIONS.get(sensor_type)` then `sensor_info.get("control_topic")`,
erroring out on `None` at either step, else publishing the serialized
`{sensor, command}` payload to the sensor's control topic. -/
def send_control_message (sensor_type command : String) : ControlOutcome :=
  match SENSOR_ACTIONS.lookup sensor_type with
  | none => ControlOutcome.errNoSensorInfo
  | some sensor_info =>
    match sensor_info.control_topic with
    | none => ControlOutcome.errNoControlTopic
    | some topic =>
      ControlOutcome.published topic (jsonSensorCommand sensor_type command)

/-- A request on `self.db_queue`: `('save_message', topic, payload)` from
`save_message`, or `('get_messages', result_queue)` from `get_messages`. -/
inductive DbTask where
  | save_message (topic payload : String)
  | get_messages
deriving DecidableEq

/-- `_db_thread_func`, run over the FIFO queue contents. The store is the
`messages` table in insertion order, each row modelled by its
`(topic, payload)` columns. `insertFails t p = true` models the `INSERT`
raising a store-level error for that record: the `with conn` block rolls
the record back and re-raises, nothing catches the exception, so the
thread function terminates (flag `true` in the result) and the remaining
queued tasks are never taken. A `get_messages` task answers its caller's
`result_queue` with a full `SELECT * FROM messages` snapshot; the second
component collects those answers in delivery order. -/
def dbThreadRun (insertFails : String → String → Bool)
    (store : List (String × String)) :
    List DbTask → List (String × String) × List (List (String × String)) × Bool
  | [] => (store, [], false)
  | DbTask.save_message t p :: rest =>
    if insertFails t p then (store, [], true)
    else dbThreadRun insertFails (store ++ [(t, p)]) rest
  | DbTask.get_messages :: rest =>
    let r := dbThreadRun insertFails store rest
    (r.1, store :: r.2.1, r.2.2)

/-- The normal-operation store: no `INSERT` ever fails. -/
def insertNeverFails : String → String → Bool := fun _ _ => false

/-- The records of the `save_message` tasks of a queue, in queue order. -/
def appendsOf : List DbTask → List (String × String)
  | [] => []
  | DbTask.save_message t p :: rest => (t, p) :: appendsOf rest
  | DbTask.get_messages :: rest => appendsOf rest

/-- How many `get_messages` tasks a queue holds. -/
def queryCount : List DbTask → Nat
  | [] => 0
  | DbTask.save_message _ _ :: rest => queryCount rest
  | DbTask.get_messages :: rest => queryCount rest + 1

/-- A store whose `INSERT` raises exactly on records with topic "bad". -/
def failsOnBad : String → String → Bool := fun t _ => t == "bad"

/-- The spec's `all_data_topics()`: every `data_topic` in the table. -/
def all_data_topics : List String :=
  SENSOR_ACTIONS.filterMap (fun p => p.2.data_topic)

/-- The spec's `all_control_topics()`: every sensor `control_topic` and
every `Action.topic` appearing in the table. -/
def all_control_topics : List String :=
  SENSOR_ACTIONS.filterMap (fun p => p.2.control_topic) ++ control_topics

/-- Spec-side description (spec section 4.2, steps 2-3): the single
optional `(control_topic, payload)` emission of one rule on one reading,
used to compare the code's loop with the spec's
rule-declaration-order sequence. -/
def ruleEmissionSpec (reading : Reading) (dk : DataKeyInfo) :
    Option (String × String) :=
  match reading dk.data_key with
  | none => none
  | some v =>
    match ruleAction v dk with
    | some a => some (a.topic, jsonDeviceState a.device a.state)
    | none => none

/-! Helper lemmas shared by the claim theorems. -/

/-- The publishes produced by one rule step are the previous publishes
extended by that rule's optional emission. -/
theorem dataKeyStep_snd (reading : Reading) (acc : Bool × List (String × String))
    (dk : DataKeyInfo) :
    (dataKeyStep reading acc dk).2 = acc.2 ++ (ruleEmissionSpec reading dk).toList := by
  unfold dataKeyStep ruleEmissionSpec
  cases h : reading dk.data_key with
  | none => simp
  | some v => cases ha : ruleAction v dk <;> simp [ha]

/-- The publishes of the inner rule loop are the previous publishes
extended by the rules' emissions in declaration order. -/
theorem processDataKeys_snd (reading : Reading) (dks : List DataKeyInfo)
    (acc : Bool × List (String × String)) :
    (processDataKeys reading acc dks).2 =
      acc.2 ++ dks.filterMap (ruleEmissionSpec reading) := by
  induction dks generalizing acc with
  | nil => simp [processDataKeys]
  | cons dk rest ih =>
    have h1 : processDataKeys reading acc (dk :: rest) =
        processDataKeys reading (dataKeyStep reading acc dk) rest := rfl
    rw [h1, ih, dataKeyStep_snd]
    cases hre : ruleEmissionSpec reading dk <;>
      simp [List.filterMap_cons, hre]

/-- The publishes of the outer sensor loop over any table are the
emissions of the non-skipped entries whose data topic matches, flattened
in table order. -/
theorem sensorFold_snd (topic : String) (reading : Reading)
    (table : List (String × SensorInfo)) (acc : Bool × List (String × String)) :
    (table.foldl (sensorStep topic reading) acc).2 =
      acc.2 ++ (table.filter (fun p =>
          !(p.1 == "device_control_topics") && (p.2.data_topic == some topic))).flatMap
        (fun p => p.2.data_keys.filterMap (ruleEmissionSpec reading)) := by
  induction table generalizing acc with
  | nil => simp
  | cons p rest ih =>
    have h1 : (p :: rest).foldl (sensorStep topic reading) acc =
        rest.foldl (sensorStep topic reading) (sensorStep topic reading acc p) := rfl
    by_cases hname : p.1 = "device_control_topics"
    · have hstep : sensorStep topic reading acc p = acc := by
        simp [sensorStep, hname]
      rw [h1, hstep, ih]
      simp [List.filter_cons, hname]
    · by_cases hdt : p.2.data_topic = some topic
      · have hstep : sensorStep topic reading acc p =
            processDataKeys reading acc p.2.data_keys := by
          simp [sensorStep, hname, hdt]
        rw [h1, hstep, ih, processDataKeys_snd]
        simp [List.filter_cons, hname, hdt]
      · have hstep : sensorStep topic reading acc p = acc := by
          simp [sensorStep, hname, hdt]
        rw [h1, hstep, ih]
        simp [List.filter_cons, hname, hdt]

/-! Claim theorems. -/

/-- C1: the claim says a message on any registered control topic (sensor
control topic or action topic) is a silent no-op. On the code, the fan
action topic is a registered control topic and not a data topic, and
`process_sensor_data` on it publishes nothing, yet it does take the
unknown-topic report branch: line 171 consults only
`sensor_control_topics`, never the `control_topics` set of action topics
that `__init__` computes for no other purpose. -/
theorem action_topic_message_reports_unknown_topic :
    "/RG_7557_GreenHouse/Devices/Fan/Control" ∈ all_control_topics ∧
    "/RG_7557_GreenHouse/Devices/Fan/Control" ∉ all_data_topics ∧
    process_sensor_data "/RG_7557_GreenHouse/Devices/Fan/Control"
        (fun _ => none) =
      { publishes := [], unknownTopic := true } := by
  refine ⟨by decide, by decide, ?_⟩
  rfl

/-- C2 counterexample: a store-level failure on an append is not handled
locally. With a store failing on the "bad" record, the queue holding a
good append, the failing append, then a query, ends with the thread
function terminated (`true`), the bad record dropped, and the query never
answered: the actor does not continue to process subsequent requests. -/
theorem append_failure_not_contained :
    dbThreadRun failsOnBad []
        [DbTask.save_message "t1" "p1", DbTask.save_message "bad" "x",
         DbTask.get_messages] =
      ([("t1", "p1")], [], true) := by
  rfl

/-- C2 amended: a store-level failure during an insert drops the record
and sends nothing to the append's caller, but it is fatal to the actor
loop: the thread function terminates and none of the subsequently queued
requests is processed (no further store change, no query response). -/
theorem append_failure_stops_db_loop (fails : String → String → Bool)
    (store : List (String × String)) (t p : String) (rest : List DbTask)
    (h : fails t p = true) :
    dbThreadRun fails store (DbTask.save_message t p :: rest) =
      (store, [], true) := by
  simp [dbThreadRun, h]

/-- C2 amended, witness: the generic failure theorem applied to the
concrete failing store and queue of the counterexample. -/
theorem append_failure_stops_db_loop_witness :
    failsOnBad "bad" "x" = true ∧
    dbThreadRun failsOnBad [("t1", "p1")]
        [DbTask.save_message "bad" "x", DbTask.get_messages] =
      ([("t1", "p1")], [], true) :=
  ⟨by decide,
   append_failure_stops_db_loop failsOnBad [("t1", "p1")] "bad" "x"
     [DbTask.get_messages] (by decide)⟩

/-- C3: a reading in which a rule's field is present with value exactly
the rule's threshold marks the sensor handled but emits no action for
that rule: neither the above nor the below action fires on equality. -/
theorem equal_threshold_emits_nothing (reading : Reading)
    (acc : Bool × List (String × String)) (dk : DataKeyInfo)
    (h : reading dk.data_key = some dk.threshold) :
    dataKeyStep reading acc dk = (true, acc.2) := by
  simp [dataKeyStep, h, ruleAction]

/-- C3 witness: the DHT temperature rule at a reading of exactly 28. -/
theorem equal_threshold_emits_nothing_witness :
    dataKeyStep (fun _ => some 28) (false, [])
      { data_key := "Temperature"
        threshold := 28
        above_action := some
          { device := "fan"
            state := "ON"
            topic := "/RG_7557_GreenHouse/Devices/Fan/Control" }
        below_action := none } = (true, []) :=
  equal_threshold_emits_nothing (fun _ => some 28) (false, []) _ rfl

/-- C4: a reading in which a rule's field is present with value strictly
above the threshold emits exactly the configured above action when there
is one and nothing otherwise; the below action never fires. -/
theorem above_threshold_emits_above_action (reading : Reading)
    (acc : Bool × List (String × String)) (dk : DataKeyInfo) (v : ℚ)
    (hv : reading dk.data_key = some v) (ht : dk.threshold < v) :
    dataKeyStep reading acc dk =
      (true, acc.2 ++
        (match dk.above_action with
         | some a => [(a.topic, jsonDeviceState a.device a.state)]
         | none => [])) := by
  cases ha : dk.above_action <;>
    simp [dataKeyStep, hv, ruleAction, ht, ha]

/-- C4 witness: the DHT temperature rule at a reading of 30, strictly
above its threshold 28, emits the fan action. -/
theorem above_threshold_emits_above_action_witness :
    (28 : ℚ) < 30 ∧
    dataKeyStep (fun _ => some 30) (false, [])
      { data_key := "Temperature"
        threshold := 28
        above_action := some
          { device := "fan"
            state := "ON"
            topic := "/RG_7557_GreenHouse/Devices/Fan/Control" }
        below_action := none } =
      (true, [("/RG_7557_GreenHouse/Devices/Fan/Control",
               jsonDeviceState "fan" "ON")]) :=
  ⟨by decide,
   above_threshold_emits_above_action (fun _ => some 30) (false, []) _ 30 rfl
     (by decide)⟩

/-- C5: under normal operation, every append enqueued before a query is
visible in that query's result, in enqueue order: the response delivered
to the query following the task prefix `pre` is exactly the prior store
contents extended by the appended records of `pre`, in queue order. -/
theorem appends_before_query_visible_in_order (store : List (String × String))
    (pre post : List DbTask) :
    (dbThreadRun insertNeverFails store
        (pre ++ DbTask.get_messages :: post)).2.1[queryCount pre]? =
      some (store ++ appendsOf pre) := by
  induction pre generalizing store with
  | nil => simp [dbThreadRun, queryCount, appendsOf]
  | cons t rest ih =>
    cases t with
    | save_message a b =>
      simpa [dbThreadRun, insertNeverFails, queryCount, appendsOf] using
        ih (store ++ [(a, b)])
    | get_messages =>
      simpa [dbThreadRun, queryCount, appendsOf] using ih store

/-- C6: the rule loop processes exactly the rules whose field is present
in the reading: dropping every absent-field rule leaves the evaluation
outcome (handled flag and publishes) unchanged, and an absent field only
skips its rule. -/
theorem absent_fields_skipped (reading : Reading)
    (acc : Bool × List (String × String)) (dks : List DataKeyInfo) :
    processDataKeys reading acc dks =
      processDataKeys reading acc
        (dks.filter (fun dk => (reading dk.data_key).isSome)) := by
  induction dks generalizing acc with
  | nil => rfl
  | cons dk rest ih =>
    have h1 : processDataKeys reading acc (dk :: rest) =
        processDataKeys reading (dataKeyStep reading acc dk) rest := rfl
    cases h : reading dk.data_key with
    | none =>
      have hstep : dataKeyStep reading acc dk = acc := by
        simp [dataKeyStep, h]
      have hfil : (dk :: rest).filter (fun dk => (reading dk.data_key).isSome) =
          rest.filter (fun dk => (reading dk.data_key).isSome) := by
        simp [List.filter_cons, h]
      rw [h1, hstep, hfil]
      exact ih acc
    | some v =>
      have hfil : (dk :: rest).filter (fun dk => (reading dk.data_key).isSome) =
          dk :: rest.filter (fun dk => (reading dk.data_key).isSome) := by
        simp [List.filter_cons, h]
      rw [h1, hfil]
      exact ih (dataKeyStep reading acc dk)

/-- C7: the publishes of `process_sensor_data` are exactly, for each
non-skipped table entry whose data topic matches in table order, the
optional emissions of its rules in rule-declaration order, so at most one
emission arises per rule and emissions keep rule order. -/
theorem publishes_in_rule_declaration_order (topic : String) (reading : Reading) :
    (process_sensor_data topic reading).publishes =
      (SENSOR_ACTIONS.filter (fun p =>
          !(p.1 == "device_control_topics") && (p.2.data_topic == some topic))).flatMap
        (fun p => p.2.data_keys.filterMap (ruleEmissionSpec reading)) := by
  have h := sensorFold_snd topic reading SENSOR_ACTIONS (false, [])
  simpa [process_sensor_data, psdFold] using h

/-- C8: a control command naming a sensor kind absent from the table
takes the unknown-sensor error path: nothing is published and the command
is dropped. -/
theorem unknown_sensor_kind_drops_command (sensor_type command : String)
    (h : SENSOR_ACTIONS.lookup sensor_type = none) :
    send_control_message sensor_type command = ControlOutcome.errNoSensorInfo := by
  simp [send_control_message, h]

/-- C8 witness: the spec's scenario `send_control_command("unknown_sensor",
"ON")`. -/
theorem unknown_sensor_kind_drops_command_witness :
    SENSOR_ACTIONS.lookup "unknown_sensor" = none ∧
    send_control_message "unknown_sensor" "ON" =
      ControlOutcome.errNoSensorInfo :=
  ⟨by decide, unknown_sensor_kind_drops_command "unknown_sensor" "ON" (by decide)⟩

/-- C9: in the fixed table, the set of all control topics (every sensor
control topic and every action topic) is disjoint from the set of all
data topics. -/
theorem control_topics_disjoint_from_data_topics :
    ∀ t ∈ all_control_topics, t ∉ all_data_topics := by
  decide

/-- C9 witness: the DHT sensor control topic is a control topic and not a
data topic. -/
theorem control_topics_disjoint_from_data_topics_witness :
    "/RG_7557_GreenHouse/Sensors/DHT/Control" ∈ all_control_topics ∧
    "/RG_7557_GreenHouse/Sensors/DHT/Control" ∉ all_data_topics :=
  ⟨by decide,
   control_topics_disjoint_from_data_topics
     "/RG_7557_GreenHouse/Sensors/DHT/Control" (by decide)⟩

/-- C10: `send_control_message` on the table key "device_control_topics"
finds the entry (the lookup succeeds) but the entry has no control topic,
so the no-control-topic error path is taken and nothing is published. -/
theorem device_control_topics_key_never_publishes (command : String) :
    SENSOR_ACTIONS.lookup "device_control_topics" ≠ none ∧
    send_control_message "device_control_topics" command =
      ControlOutcome.errNoControlTopic :=
  ⟨by decide, rfl⟩

end DataManager
